import Mathlib

/-!
Shallow embedding of the ESP32 status-display client
(`src/esp32/nerdminer_display/nerdminer_display.ino`) of the
minerva-homebrain repository, together with theorems checking the
natural-language specification's claims against it.

Conventions of the embedding:
* Arduino `String` is modelled by Lean `String`; `substring(0, n)` by
  `substrTo`.
* `time_t` and other integer quantities are modelled by `Int`;
  `unsigned long` (32-bit `millis()` arithmetic) by `Nat` with explicit
  wraparound subtraction `usub32`.
* A parsed JSON document is modelled by `Payload`: each field the sketch
  reads is an `Option`, where `none` stands for "absent, or present with
  a type from which ArduinoJson cannot produce the requested value"
  (both make the `doc[...] | default` idiom yield the default and make
  the `(const char*)` cast yield a null pointer).
* The network environment of one fetch cycle is `NetEnv`: whether
  `http.begin` succeeded, the HTTP response code, and the result of
  `deserializeJson` (`none` = malformed or oversized body).
* Mutation of the global `last_state` is made explicit: `fetchStatus`
  takes the snapshot and returns the success flag together with the
  snapshot after the call; `drawScreen` takes the snapshot (passed by
  `const` reference in the source, which contains no writes to it) and
  returns the emitted draw commands together with the snapshot after
  the call.
-/

/-- TFT colour constant `TFT_BLACK` (RGB565). -/
def TFT_BLACK : Nat := 0x0000

/-- TFT colour constant `TFT_WHITE` (RGB565). -/
def TFT_WHITE : Nat := 0xFFFF

/-- TFT colour constant `TFT_GREEN` (RGB565). -/
def TFT_GREEN : Nat := 0x07E0

/-- TFT colour constant `TFT_RED` (RGB565). -/
def TFT_RED : Nat := 0xF800

/-- HTTP success code checked by `fetchStatus` (`HTTP_CODE_OK`). -/
def HTTP_CODE_OK : Int := 200

/-- Poll interval in milliseconds (`POLL_INTERVAL_MS = 45000`). -/
def POLL_INTERVAL_MS : Nat := 45000

/-- Build-time timezone offset in seconds (`TIMEZONE_OFFSET_SECONDS`
from `config.example.h`; 0 = UTC in the example configuration). -/
def TIMEZONE_OFFSET_SECONDS : Int := 0

/-- Arduino `String::substring(0, n)`: the first `n` characters. -/
def substrTo (s : String) (n : Nat) : String := ⟨s.data.take n⟩

/-- One entry of the fixed service array (`struct ServiceItem`). -/
structure ServiceItem where
  name : String
  is_up : Bool
deriving Repr, DecidableEq

/-- The snapshot type (`struct StatusState`).  The C array
`ServiceItem services[4]` is modelled by a list whose length is 4
throughout the program's lifecycle; `service_count` says how many of
its leading entries are meaningful. -/
structure StatusState where
  bottom_line : String
  word : String
  services : List ServiceItem
  service_count : Nat
  server_time : Int
  expr_state : String
  expr_message : String
deriving Repr, DecidableEq

/-- The global `StatusState last_state` at boot: zero-initialised
(empty strings, `is_up = false`, `service_count = 0`,
`server_time = 0`). -/
def initState : StatusState :=
  { bottom_line := ""
    word := ""
    services := List.replicate 4 { name := "", is_up := false }
    service_count := 0
    server_time := 0
    expr_state := ""
    expr_message := "" }

/-- One entry of the JSON `services` array as the sketch reads it:
`name` is `none` when `(const char*)svc["name"]` is a null pointer
(field absent or not a string); `is_up` is `none` when
`svc["is_up"] | false` falls back to the default (field absent or not a
boolean). -/
structure ServiceEntryP where
  name : Option String
  is_up : Option Bool
deriving Repr, DecidableEq

/-- A successfully deserialised JSON document, restricted to the fields
the sketch reads.  `none` models an absent field (or one whose type
makes the read yield the fallback / a null `const char*`). -/
structure Payload where
  bottom_line : Option String
  word_of_day_word : Option String
  expression_state : Option String
  expression_message : Option String
  services : List ServiceEntryP
  server_time : Option String
deriving Repr, DecidableEq

/-- The network-visible outcome of one fetch cycle: whether
`http.begin` succeeded, the `http.GET()` response code, and the result
of `deserializeJson` (`none` = malformed JSON or payload too large for
the 4096-byte buffer). -/
structure NetEnv where
  beginOk : Bool
  code : Int
  body : Option Payload
deriving Repr, DecidableEq

/-- Lines 186-187 of the sketch: build one stored `ServiceItem` from a
payload entry.  `String((const char*)svc["name"])` with a null pointer
is the empty Arduino string; `svc["is_up"] | false` defaults to
`false`. -/
def svcFromEntry (e : ServiceEntryP) : ServiceItem :=
  { name := e.name.getD "", is_up := e.is_up.getD false }

/-- Lines 182-189 of the sketch: the loop over the JSON `services`
array.  Starting from counter `cnt`, write each entry into the fixed
array `arr` at index `cnt` and increment, stopping (`break`) once the
counter reaches 4.  Returns the array and counter after the loop. -/
def writeServices : List ServiceEntryP → List ServiceItem → Nat →
    List ServiceItem × Nat
  | [], arr, cnt => (arr, cnt)
  | e :: rest, arr, cnt =>
    if 4 ≤ cnt then (arr, cnt)
    else writeServices rest (arr.set cnt (svcFromEntry e)) (cnt + 1)

/-- C `isspace` for the default locale (the characters `%d` skips). -/
def isSpaceC (c : Char) : Bool :=
  c = ' ' || c = '\t' || c = '\n' || c = '\r' || c = '\x0b' || c = '\x0c'

/-- Drop the leading whitespace that a `%d` conversion skips. -/
def dropSpaces : List Char → List Char
  | [] => []
  | c :: cs => if isSpaceC c then dropSpaces cs else c :: cs

/-- Split off the longest leading run of decimal digits. -/
def takeDigits : List Char → List Char × List Char
  | [] => ([], [])
  | c :: cs =>
    if c.isDigit then
      let p := takeDigits cs
      (c :: p.1, p.2)
    else ([], c :: cs)

/-- Numeric value of a digit run. -/
def digitsVal (ds : List Char) : Nat :=
  ds.foldl (fun a c => a * 10 + (c.toNat - 48)) 0

/-- One `%d` conversion of `sscanf`: skip whitespace, then an optional
sign followed by at least one digit; fails otherwise.  Returns the
value and the unconsumed input. -/
def scanInt (s : List Char) : Option (Int × List Char) :=
  match dropSpaces s with
  | '-' :: rest =>
    match takeDigits rest with
    | ([], _) => none
    | (ds, r) => some (-(digitsVal ds : Int), r)
  | '+' :: rest =>
    match takeDigits rest with
    | ([], _) => none
    | (ds, r) => some ((digitsVal ds : Int), r)
  | other =>
    match takeDigits other with
    | ([], _) => none
    | (ds, r) => some ((digitsVal ds : Int), r)

/-- A literal (non-whitespace) format character of `sscanf`: must match
the next input character exactly. -/
def matchChar (c : Char) (s : List Char) : Option (List Char) :=
  match s with
  | [] => none
  | d :: rest => if d = c then some rest else none

/-- Line 195 of the sketch:
`sscanf(server_time, "%d-%d-%dT%d:%d:%d", ...) == 6`.  Succeeds with
the six integers exactly when all six conversions and all five literal
separators match (trailing input is ignored, as in `sscanf`). -/
def scanTimePattern (s : List Char) :
    Option (Int × Int × Int × Int × Int × Int) := do
  let (y, s) ← scanInt s
  let s ← matchChar '-' s
  let (mo, s) ← scanInt s
  let s ← matchChar '-' s
  let (d, s) ← scanInt s
  let s ← matchChar 'T' s
  let (h, s) ← scanInt s
  let s ← matchChar ':' s
  let (mi, s) ← scanInt s
  let s ← matchChar ':' s
  let (se, _) ← scanInt s
  pure (y, mo, d, h, mi, se)

/-- Days from 1970-01-01 to civil date `(y, m, d)` (proleptic
Gregorian; the month is normalised the same way `mktime` normalises an
out-of-range `tm_mon`).  `Int` division here is Euclidean, which for
the positive divisors used is floor division. -/
def daysFromCivil (y m d : Int) : Int :=
  let y := if m ≤ 2 then y - 1 else y
  let era := y / 400
  let yoe := y - era * 400
  let mp := (m + 9) % 12
  let doy := (153 * mp + 2) / 5 + d - 1
  let doe := yoe * 365 + yoe / 4 - yoe / 100 + doy
  era * 146097 + doe - 719468

/-- Model of C `mktime` on the `struct tm` built at lines 196-202 of
the sketch, for the configured fixed-offset timezone with no daylight
saving (`configTime(TIMEZONE_OFFSET_SECONDS, 0, ...)`): civil fields to
epoch seconds. -/
def mktimeModel (tm_year tm_mon tm_mday tm_hour tm_min tm_sec : Int) : Int :=
  daysFromCivil (tm_year + 1900) (tm_mon + 1) tm_mday * 86400 +
    tm_hour * 3600 + tm_min * 60 + tm_sec - TIMEZONE_OFFSET_SECONDS

/-- Lines 191-205 of the sketch: parse the `server_time` string.  The
result is `some t` exactly when the `sscanf` pattern matched all six
fields, in which case `t` is the `mktime` of those fields. -/
def parseServerTime (s : String) : Option Int :=
  match scanTimePattern s.data with
  | none => none
  | some (y, mo, d, h, mi, se) =>
    some (mktimeModel (y - 1900) (mo - 1) d h mi se)

/-- Lines 191-205 of the sketch as a state update: `out.server_time` is
assigned only when the field is present (non-null `const char*`) and
the pattern matched; otherwise it keeps its current value. -/
def applyServerTime (field : Option String) (cur : Int) : Int :=
  match field with
  | none => cur
  | some s =>
    match parseServerTime s with
    | none => cur
    | some t => t

/-- Lines 177-205 of the sketch: the assignments performed on the
snapshot after `deserializeJson` succeeded. -/
def applyPayload (doc : Payload) (out : StatusState) : StatusState :=
  let out :=
    { out with
      bottom_line := doc.bottom_line.getD "All good"
      word := doc.word_of_day_word.getD "None"
      expr_state := doc.expression_state.getD "idle"
      expr_message := doc.expression_message.getD "" }
  let p := writeServices doc.services out.services 0
  let out := { out with services := p.1, service_count := p.2 }
  { out with server_time := applyServerTime doc.server_time out.server_time }

/-- `fetchStatus(StatusState& out)` (lines 144-209): returns the `bool`
result of the call together with the snapshot after the call.  The
snapshot is written only after every failure exit has been passed. -/
def fetchStatus (env : NetEnv) (out : StatusState) : Bool × StatusState :=
  if !env.beginOk then (false, out)
  else if env.code ≠ HTTP_CODE_OK then (false, out)
  else
    match env.body with
    | none => (false, out)
    | some doc => (true, applyPayload doc out)

/-- `formatTwo(int v)` (lines 62-65): zero-pad to two characters for
`v < 10`. -/
def formatTwo (v : Int) : String :=
  if v < 10 then "0" ++ toString v else toString v

/-- The fields of `struct tm` that `drawScreen` reads. -/
structure Tm where
  sec : Int
  min : Int
  hour : Int
  mday : Int
  mon : Int
deriving Repr, DecidableEq

/-- Civil date from a day number (inverse of `daysFromCivil`). -/
def civilFromDays (z : Int) : Int × Int × Int :=
  let z := z + 719468
  let era := z / 146097
  let doe := z - era * 146097
  let yoe := (doe - doe / 1460 + doe / 36524 - doe / 146096) / 365
  let y := yoe + era * 400
  let doy := doe - (365 * yoe + yoe / 4 - yoe / 100)
  let mp := (5 * doy + 2) / 153
  let d := doy - (153 * mp + 2) / 5 + 1
  let m := mp + (if mp < 3 then 3 else -9)
  (if m ≤ 2 then y + 1 else y, m, d)

/-- Model of `localtime_r` for the configured fixed-offset timezone
with no daylight saving: epoch seconds to broken-down local time
(`tm_mon` is 0-based, as in `struct tm`). -/
def localtimeModel (t : Int) : Tm :=
  let lt := t + TIMEZONE_OFFSET_SECONDS
  let days := lt / 86400
  let sod := lt % 86400
  let c := civilFromDays days
  { sec := sod % 60
    min := sod / 60 % 60
    hour := sod / 3600
    mday := c.2.2
    mon := c.2.1 - 1 }

/-- One TFT_eSPI call emitted by `drawScreen`. -/
inductive Cmd where
  | fillScreen (color : Nat)
  | setTextColor (fg bg : Nat)
  | drawString (s : String) (x y font : Int)
  | drawCircle (x y r : Int) (color : Nat)
deriving Repr, DecidableEq

/-- Lines 73-74 of the sketch: the `time_t` value handed to
`localtime_r` for the top-left clock, or `none` when
`state.server_time == 0` (the "No time" branch is taken instead). -/
def drawScreenClockArg (state : StatusState) (nowWall : Int) : Option Int :=
  if state.server_time ≠ 0 then
    some (state.server_time + (nowWall - state.server_time))
  else none

/-- The lambda `drawFace` (lines 85-98): the glyph string drawn inside
the face circle for a given `expression.state` value. -/
def faceGlyph (stateName : String) : String :=
  if stateName = "warning" || stateName = "error" then ":O"
  else if stateName = "thinking" then ":|"
  else if stateName = "happy" then ":)"
  else "._"

/-- Lines 111-113 of the sketch: the service name as drawn, truncated
to 16 characters. -/
def serviceNameText (svc : ServiceItem) : String :=
  if 16 < svc.name.length then substrTo svc.name 16 else svc.name

/-- Lines 123-124 of the sketch: the bottom-line text as drawn:
`"API offline"` when offline, else the stored `bottom_line`, truncated
to 22 characters. -/
def bottomText (state : StatusState) (offline : Bool) : String :=
  let bottom := if offline then "API offline" else state.bottom_line
  if 22 < bottom.length then substrTo bottom 22 else bottom

/-- Lines 126-128 of the sketch: the word line as drawn:
`"Word: " + word`, truncated to 22 characters in total. -/
def wordLineText (state : StatusState) : String :=
  let wordline := "Word: " ++ state.word
  if 22 < wordline.length then substrTo wordline 22 else wordline

/-- Lines 102-116 of the sketch: the service rows.  Each row draws the
UP/DN token in green/red and the truncated name, advancing `y` by 20.
Returns the emitted commands and the `y` after the loop. -/
def serviceRowCmds : List ServiceItem → Int → List Cmd × Int
  | [], y => ([], y)
  | svc :: rest, y =>
    let icon := if svc.is_up then "UP" else "DN"
    let color := if svc.is_up then TFT_GREEN else TFT_RED
    let p := serviceRowCmds rest (y + 20)
    (Cmd.setTextColor color TFT_BLACK :: Cmd.drawString icon 5 y 2 ::
       Cmd.setTextColor TFT_WHITE TFT_BLACK ::
       Cmd.drawString (serviceNameText svc) 35 y 2 :: p.1,
     p.2)

/-- `drawScreen(const StatusState& state, bool offline)` (lines
67-142).  Ambient inputs of the call are explicit: `nowWall` is
`time(nullptr)`, `width` is `tft.width()`, `debug` is `MINERVA_DEBUG`,
`ipStr` is `WiFi.localIP().toString()`.  Returns the emitted draw
commands and the snapshot after the call; the body contains no write
to `state` (it is a `const` reference), so the snapshot component is
returned as received. -/
def drawScreen (state : StatusState) (offline : Bool) (nowWall : Int)
    (width : Int) (debug : Bool) (ipStr : String) :
    List Cmd × StatusState :=
  let cmds := [Cmd.fillScreen TFT_BLACK,
               Cmd.setTextColor TFT_WHITE TFT_BLACK]
  let cmds := cmds ++
    (match drawScreenClockArg state nowWall with
     | some dispNow =>
       let ti := localtimeModel dispNow
       let timestr := formatTwo ti.hour ++ ":" ++ formatTwo ti.min
       let datestr := formatTwo ti.mday ++ "/" ++ formatTwo (ti.mon + 1)
       [Cmd.drawString timestr 5 5 4, Cmd.drawString datestr 120 5 2]
     | none => [Cmd.drawString "No time" 5 5 2])
  let cx := width - 20
  let cy : Int := 15
  let cmds := cmds ++
    [Cmd.drawCircle cx cy 12 TFT_WHITE,
     Cmd.drawString (faceGlyph state.expr_state) (cx - 7) (cy - 6) 2]
  let count := state.service_count
  let p := serviceRowCmds (state.services.take (min count 4)) 40
  let cmds := cmds ++ p.1
  let y := p.2
  let q := if count = 0 then
             (cmds ++ [Cmd.drawString "No services" 5 y 2], y + 20)
           else (cmds, y)
  let cmds := q.1
  let y := q.2
  let cmds := cmds ++ [Cmd.drawString (bottomText state offline) 5 (y + 10) 2]
  let cmds := cmds ++ [Cmd.drawString (wordLineText state) 5 (y + 30) 2]
  let cmds :=
    if debug then
      let y := y + 50
      let footer1 := if offline then "IP: API offline" else "IP: " ++ ipStr
      let t := localtimeModel nowWall
      let footer2 := "Upd: " ++ formatTwo t.hour ++ ":" ++ formatTwo t.min ++
        ":" ++ formatTwo t.sec
      cmds ++ [Cmd.drawString footer1 5 y 2, Cmd.drawString footer2 5 (y + 15) 2]
    else cmds
  (cmds, state)

/-- The 32-bit unsigned subtraction `now_ms - last_poll` performed on
`unsigned long` values in `loop()`. -/
def usub32 (a b : Nat) : Nat := (a + 2 ^ 32 - b) % 2 ^ 32

/-- The mutable state `loop()` touches: the global `last_poll` and the
global `last_state`. -/
structure LoopState where
  last_poll : Nat
  last_state : StatusState
deriving Repr, DecidableEq

/-- The observable calls one `loop()` iteration makes:
`fetchAttempt` records the call `fetchStatus(last_state)`, and
`render s off` records the call `drawScreen(s, off)` with its
arguments. -/
inductive Event where
  | fetchAttempt
  | render (s : StatusState) (offline : Bool)
deriving Repr, DecidableEq

/-- One iteration of `loop()` (lines 223-231): when strictly more than
`POLL_INTERVAL_MS` milliseconds (in 32-bit wraparound arithmetic) have
passed since `last_poll`, fetch into `last_state`, render it with
`offline = !ok`, and set `last_poll` to `now_ms`; otherwise do nothing.
`now_ms` is the value of `millis()`, `env` the network outcome of the
fetch were one attempted. -/
def loopStep (st : LoopState) (now_ms : Nat) (env : NetEnv) :
    LoopState × List Event :=
  if POLL_INTERVAL_MS < usub32 now_ms st.last_poll then
    let r := fetchStatus env st.last_state
    ({ last_poll := now_ms, last_state := r.2 },
     [Event.fetchAttempt, Event.render r.2 (!r.1)])
  else (st, [])

/-! ### Helper lemmas -/

/-- Appending strings appends their character data. -/
theorem data_append (s t : String) : (s ++ t).data = s.data ++ t.data := by
  cases s; cases t; rfl

/-- `substring(0, n)` of a string of at most `n` characters is the
string itself. -/
theorem substrTo_of_length_le (s : String) (n : Nat) (h : s.length ≤ n) :
    substrTo s n = s := by
  cases s with
  | mk l => exact congrArg String.mk (List.take_of_length_le h)

/-- Taking one element past an in-range `set` position splits off the
written element. -/
theorem take_succ_set {α : Type} :
    ∀ (l : List α) (n : Nat) (a : α), n < l.length →
      (l.set n a).take (n + 1) = l.take n ++ [a]
  | _ :: _, 0, _, _ => rfl
  | b :: t, n + 1, a, h => by
    have ih := take_succ_set t n a (by simpa using h)
    simp only [List.set_cons_succ, List.take_succ_cons, ih, List.cons_append]
  | [], _, _, h => by simp at h

/-- The counter after the service loop: it counts every array entry
visited, capped at 4, independently of the array written into. -/
theorem writeServices_count :
    ∀ (es : List ServiceEntryP) (arr : List ServiceItem) (cnt : Nat),
      cnt ≤ 4 → (writeServices es arr cnt).2 = min (cnt + es.length) 4
  | [], arr, cnt, hc => by
    simp [writeServices]; omega
  | e :: rest, arr, cnt, hc => by
    unfold writeServices
    by_cases h4 : 4 ≤ cnt
    · simp only [h4, if_true]
      simp [List.length_cons]; omega
    · simp only [h4, if_false]
      rw [writeServices_count rest _ (cnt + 1) (by omega)]
      simp [List.length_cons]; omega

/-- Full characterisation of the service loop on an array of length at
least 4: the counter is `min (cnt + N) 4` and the active prefix of the
resulting array is the preserved old prefix followed by the converted
entries, in payload order. -/
theorem writeServices_spec :
    ∀ (es : List ServiceEntryP) (arr : List ServiceItem) (cnt : Nat),
      cnt ≤ 4 → 4 ≤ arr.length →
      ((writeServices es arr cnt).1).take (writeServices es arr cnt).2 =
          arr.take cnt ++ (es.take (4 - cnt)).map svcFromEntry ∧
        ((writeServices es arr cnt).1).length = arr.length
  | [], arr, cnt, hc, _ => by
    simp [writeServices]
  | e :: rest, arr, cnt, hc, hlen => by
    unfold writeServices
    by_cases h4 : 4 ≤ cnt
    · have hcnt : cnt = 4 := by omega
      simp [h4, hcnt]
    · simp only [h4, if_false]
      have hlt : cnt < 4 := by omega
      have ih := writeServices_spec rest (arr.set cnt (svcFromEntry e))
        (cnt + 1) (by omega) (by simpa using hlen)
      refine ⟨?_, by simpa using ih.2⟩
      rw [ih.1, take_succ_set arr cnt _ (by omega)]
      have h43 : 4 - cnt = (4 - (cnt + 1)) + 1 := by omega
      rw [h43, List.take_succ_cons, List.map_cons, List.append_assoc,
        List.singleton_append]

/-! ### Claims -/

/-- C1: every failing fetch cycle (connection-open failure, non-200
response code, or JSON parse error including an oversized payload)
returns `false` and leaves the snapshot argument completely
unchanged. -/
theorem C1_fetch_failure_leaves_snapshot_unchanged (env : NetEnv)
    (out : StatusState)
    (h : env.beginOk = false ∨ env.code ≠ HTTP_CODE_OK ∨ env.body = none) :
    fetchStatus env out = (false, out) := by
  rcases h with h | h | h <;> simp [fetchStatus, h]

/-- Witness for C1 at the concrete connection-open failure
environment and the boot snapshot. -/
theorem C1_witness :
    ((false : Bool) = false ∨ (200 : Int) ≠ HTTP_CODE_OK ∨
        (none : Option Payload) = none) ∧
      fetchStatus ⟨false, 200, none⟩ initState = (false, initState) :=
  ⟨Or.inl rfl,
    C1_fetch_failure_leaves_snapshot_unchanged ⟨false, 200, none⟩ initState
      (Or.inl rfl)⟩

/-- C8: on a successful parse, each omitted top-level field is replaced
by its documented default (`bottom_line` ⇒ "All good",
`word_of_day.word` ⇒ "None", `expression.state` ⇒ "idle"), and the
fetch still reports success. -/
theorem C8_omitted_fields_get_defaults (env : NetEnv) (out : StatusState)
    (p : Payload) (h1 : env.beginOk = true) (h2 : env.code = HTTP_CODE_OK)
    (h3 : env.body = some p) :
    (fetchStatus env out).1 = true ∧
      (p.bottom_line = none → (fetchStatus env out).2.bottom_line = "All good") ∧
      (p.word_of_day_word = none → (fetchStatus env out).2.word = "None") ∧
      (p.expression_state = none → (fetchStatus env out).2.expr_state = "idle") := by
  have hfe : fetchStatus env out = (true, applyPayload p out) := by
    simp [fetchStatus, h1, h2, h3]
  rw [hfe]
  refine ⟨rfl, ?_, ?_, ?_⟩ <;> intro h <;> simp [applyPayload, h]

/-- Witness for C8 at the payload omitting every field. -/
theorem C8_witness :
    (fetchStatus ⟨true, HTTP_CODE_OK, some ⟨none, none, none, none, [], none⟩⟩
        initState).2.bottom_line = "All good" ∧
      (fetchStatus ⟨true, HTTP_CODE_OK, some ⟨none, none, none, none, [], none⟩⟩
        initState).2.word = "None" ∧
      (fetchStatus ⟨true, HTTP_CODE_OK, some ⟨none, none, none, none, [], none⟩⟩
        initState).2.expr_state = "idle" ∧
      (fetchStatus ⟨true, HTTP_CODE_OK, some ⟨none, none, none, none, [], none⟩⟩
        initState).1 = true := by
  have h := C8_omitted_fields_get_defaults
    ⟨true, HTTP_CODE_OK, some ⟨none, none, none, none, [], none⟩⟩ initState
    ⟨none, none, none, none, [], none⟩ rfl rfl rfl
  exact ⟨h.2.1 rfl, h.2.2.1 rfl, h.2.2.2 rfl, h.1⟩

/-- C10: a service entry with an absent (or non-string) `name` is
stored with the empty-string name; an absent (or non-boolean) `is_up`
is stored as `false`; and no entry is skipped nor the parse aborted:
the stored count is `min N 4` whatever the entries contain. -/
theorem C10_service_entry_defaults :
    (∀ e : ServiceEntryP, e.name = none → (svcFromEntry e).name = "") ∧
      (∀ e : ServiceEntryP, e.is_up = none → (svcFromEntry e).is_up = false) ∧
      (∀ (env : NetEnv) (out : StatusState) (p : Payload),
        env.beginOk = true → env.code = HTTP_CODE_OK → env.body = some p →
        (fetchStatus env out).1 = true ∧
          (fetchStatus env out).2.service_count = min p.services.length 4) := by
  refine ⟨fun e h => by simp [svcFromEntry, h],
    fun e h => by simp [svcFromEntry, h], ?_⟩
  intro env out p h1 h2 h3
  have hfe : fetchStatus env out = (true, applyPayload p out) := by
    simp [fetchStatus, h1, h2, h3]
  rw [hfe]
  refine ⟨rfl, ?_⟩
  have hc := writeServices_count p.services out.services 0 (by omega)
  simp [applyPayload, hc]

/-- Witness for C10 at a one-entry payload whose service omits both
fields. -/
theorem C10_witness :
    (svcFromEntry ⟨none, none⟩).name = "" ∧
      (svcFromEntry ⟨none, none⟩).is_up = false ∧
      (fetchStatus
          ⟨true, HTTP_CODE_OK, some ⟨none, none, none, none, [⟨none, none⟩], none⟩⟩
          initState).1 = true ∧
      (fetchStatus
          ⟨true, HTTP_CODE_OK, some ⟨none, none, none, none, [⟨none, none⟩], none⟩⟩
          initState).2.service_count = min 1 4 := by
  have h := C10_service_entry_defaults
  have h3 := h.2.2
    ⟨true, HTTP_CODE_OK, some ⟨none, none, none, none, [⟨none, none⟩], none⟩⟩
    initState ⟨none, none, none, none, [⟨none, none⟩], none⟩ rfl rfl rfl
  exact ⟨h.1 ⟨none, none⟩ rfl, h.2.1 ⟨none, none⟩ rfl, h3.1, h3.2⟩

/-- C5: on a successful parse of a payload with `N` service entries,
the snapshot holds exactly `min N 4` services, in payload order
(entries beyond the 4th never appear), and `service_count ≤ 4` holds
after every fetch, successful or not, as well as at boot. -/
theorem C5_service_cap (env : NetEnv) (out : StatusState) (p : Payload)
    (h1 : env.beginOk = true) (h2 : env.code = HTTP_CODE_OK)
    (h3 : env.body = some p) (h4 : out.services.length = 4) :
    (fetchStatus env out).2.service_count = min p.services.length 4 ∧
      ((fetchStatus env out).2.services).take
          ((fetchStatus env out).2.service_count) =
        (p.services.take 4).map svcFromEntry ∧
      (fetchStatus env out).2.service_count ≤ 4 ∧
      initState.service_count ≤ 4 ∧
      (∀ (env2 : NetEnv) (out2 : StatusState), out2.service_count ≤ 4 →
        (fetchStatus env2 out2).2.service_count ≤ 4) := by
  have hfe : fetchStatus env out = (true, applyPayload p out) := by
    simp [fetchStatus, h1, h2, h3]
  have hcnt := writeServices_count p.services out.services 0 (by omega)
  have hspec := writeServices_spec p.services out.services 0 (by omega)
    (by omega)
  refine ⟨?_, ?_, ?_, by simp [initState], ?_⟩
  · rw [hfe]; simp [applyPayload, hcnt]
  · rw [hfe]
    have := hspec.1
    simp only [List.take_zero, List.nil_append, Nat.sub_zero] at this
    simp [applyPayload, this]
  · rw [hfe]; simp [applyPayload, hcnt]
  · intro env2 out2 hle
    by_cases hb : env2.beginOk
    · by_cases hc : env2.code = HTTP_CODE_OK
      · cases hbody : env2.body with
        | none => simpa [fetchStatus, hb, hc, hbody] using hle
        | some doc =>
          have hfe2 : fetchStatus env2 out2 = (true, applyPayload doc out2) := by
            simp [fetchStatus, hb, hc, hbody]
          rw [hfe2]
          have hc2 := writeServices_count doc.services out2.services 0 (by omega)
          simp [applyPayload, hc2]
      · simpa [fetchStatus, hb, hc] using hle
    · simpa [fetchStatus, hb] using hle

/-- Witness for C5 at a 5-entry payload: exactly 4 services survive, in
order. -/
theorem C5_witness :
    (fetchStatus
        ⟨true, HTTP_CODE_OK,
          some ⟨none, none, none, none,
            [⟨some "s1", some true⟩, ⟨some "s2", some false⟩,
             ⟨some "s3", some true⟩, ⟨some "s4", some false⟩,
             ⟨some "s5", some true⟩], none⟩⟩
        initState).2.service_count =
      min
        ([⟨some "s1", some true⟩, ⟨some "s2", some false⟩,
          ⟨some "s3", some true⟩, ⟨some "s4", some false⟩,
          ⟨some "s5", some true⟩] : List ServiceEntryP).length 4 ∧
      ((fetchStatus
          ⟨true, HTTP_CODE_OK,
            some ⟨none, none, none, none,
              [⟨some "s1", some true⟩, ⟨some "s2", some false⟩,
               ⟨some "s3", some true⟩, ⟨some "s4", some false⟩,
               ⟨some "s5", some true⟩], none⟩⟩
          initState).2.services).take
        (fetchStatus
            ⟨true, HTTP_CODE_OK,
              some ⟨none, none, none, none,
                [⟨some "s1", some true⟩, ⟨some "s2", some false⟩,
                 ⟨some "s3", some true⟩, ⟨some "s4", some false⟩,
                 ⟨some "s5", some true⟩], none⟩⟩
            initState).2.service_count =
        (([⟨some "s1", some true⟩, ⟨some "s2", some false⟩,
           ⟨some "s3", some true⟩, ⟨some "s4", some false⟩,
           ⟨some "s5", some true⟩] : List ServiceEntryP).take 4).map
          svcFromEntry := by
  have h := C5_service_cap
    ⟨true, HTTP_CODE_OK,
      some ⟨none, none, none, none,
        [⟨some "s1", some true⟩, ⟨some "s2", some false⟩,
         ⟨some "s3", some true⟩, ⟨some "s4", some false⟩,
         ⟨some "s5", some true⟩], none⟩⟩
    initState
    ⟨none, none, none, none,
      [⟨some "s1", some true⟩, ⟨some "s2", some false⟩,
       ⟨some "s3", some true⟩, ⟨some "s4", some false⟩,
       ⟨some "s5", some true⟩], none⟩
    rfl rfl rfl (by decide)
  exact ⟨h.1, h.2.1⟩

/-- C6: a 30-character `bottom_line` is drawn as exactly its first 22
characters, a 20-character service name as exactly its first 16, and
the word line drawn is `"Word: " + word` truncated to 22 characters in
total (the prefix counts toward the budget). -/
theorem C6_display_truncation (s : StatusState) (svc : ServiceItem) :
    (s.bottom_line.length = 30 →
      bottomText s false = substrTo s.bottom_line 22) ∧
      (svc.name.length = 20 → serviceNameText svc = substrTo svc.name 16) ∧
      wordLineText s = substrTo ("Word: " ++ s.word) 22 ∧
      (wordLineText s).length ≤ 22 := by
  refine ⟨fun h => by simp [bottomText, h], fun h => by simp [serviceNameText, h],
    ?_, ?_⟩
  · unfold wordLineText
    by_cases hlen : 22 < ("Word: " ++ s.word).length
    · simp only [hlen, if_true]
    · simp only [hlen, if_false]
      rw [substrTo_of_length_le _ _ (by omega)]
  · unfold wordLineText
    by_cases hlen : 22 < ("Word: " ++ s.word).length
    · simp only [hlen, if_true]
      show (String.mk (("Word: " ++ s.word).data.take 22)).length ≤ 22
      show (("Word: " ++ s.word).data.take 22).length ≤ 22
      simp
    · simp only [hlen, if_false]; omega

/-- Witness for C6 at a 30-character bottom line, a 20-character
service name, and a long word of the day. -/
theorem C6_witness :
    ("123456789012345678901234567890" : String).length = 30 ∧
      bottomText
          { initState with
            bottom_line := "123456789012345678901234567890"
            word := "supercalifragilistic" } false =
        substrTo "123456789012345678901234567890" 22 ∧
      ("abcdefghijklmnopqrst" : String).length = 20 ∧
      serviceNameText ⟨"abcdefghijklmnopqrst", true⟩ =
        substrTo "abcdefghijklmnopqrst" 16 ∧
      wordLineText
          { initState with
            bottom_line := "123456789012345678901234567890"
            word := "supercalifragilistic" } =
        substrTo ("Word: " ++ "supercalifragilistic") 22 := by
  have h := C6_display_truncation
    { initState with
      bottom_line := "123456789012345678901234567890"
      word := "supercalifragilistic" }
    ⟨"abcdefghijklmnopqrst", true⟩
  exact ⟨by decide, h.1 (by decide), by decide, h.2.1 (by decide), h.2.2.1⟩

/-- C7: rendering with `offline = true` draws the literal
"API offline" as the bottom line for every snapshot, and the call
leaves every field of the snapshot unchanged (the stored `bottom_line`
stays available for the next render). -/
theorem C7_offline_override (s : StatusState) (now w : Int) (d : Bool)
    (ip : String) :
    bottomText s true = "API offline" ∧
      (∃ y : Int,
        Cmd.drawString "API offline" 5 y 2 ∈ (drawScreen s true now w d ip).1) ∧
      (drawScreen s true now w d ip).2 = s := by
  have hb : bottomText s true = "API offline" := rfl
  refine ⟨hb, ?_, rfl⟩
  simp only [drawScreen, hb]
  by_cases hc : s.service_count = 0 <;> by_cases hd : d = true <;>
    simp [hc, hd, List.mem_append, List.mem_cons, exists_or]

/-- C3: the drift-correction arithmetic is a no-op — whenever
`server_time` is known (non-zero), the `time_t` value handed to
`localtime_r` for the top-left clock is exactly the current wall-clock
time, so the captured server time does not affect the displayed
digits; with the zero sentinel, the literal "No time" is drawn
instead. -/
theorem C3_clock_drift_correction_noop (s : StatusState) (nowWall : Int) :
    (s.server_time ≠ 0 → drawScreenClockArg s nowWall = some nowWall) ∧
      (s.server_time = 0 → ∀ (off : Bool) (w : Int) (d : Bool) (ip : String),
        Cmd.drawString "No time" 5 5 2 ∈ (drawScreen s off nowWall w d ip).1) := by
  constructor
  · intro h
    simp only [drawScreenClockArg, h, ne_eq, not_false_eq_true, if_true]
    congr 1
    ring
  · intro h off w d ip
    have harg : drawScreenClockArg s nowWall = none := by
      simp [drawScreenClockArg, h]
    simp only [drawScreen, harg]
    by_cases hc : s.service_count = 0 <;> by_cases hd : d = true <;>
      simp [hc, hd, List.mem_append, List.mem_cons]

/-- Witness for C3 at a snapshot with a known server time and at the
boot snapshot. -/
theorem C3_witness :
    drawScreenClockArg { initState with server_time := 5 } 100 = some 100 ∧
      Cmd.drawString "No time" 5 5 2 ∈
        (drawScreen initState false 100 160 false "10.0.0.2").1 :=
  ⟨(C3_clock_drift_correction_noop { initState with server_time := 5 } 100).1
      (by decide),
    (C3_clock_drift_correction_noop initState 100).2 rfl false 160 false
      "10.0.0.2"⟩

/-- C9: the glyph drawn inside the face circle is a flat enumerated
mapping of `expression.state`: "warning" and "error" give the alarmed
glyph ":O", "thinking" the neutral ":|", "happy" the pleased ":)", and
every other string — "idle", unknown values, and the absent-field
default — gives the default "._"; `drawScreen` draws exactly this
glyph at the face position. -/
theorem C9_expression_glyph_mapping :
    faceGlyph "warning" = ":O" ∧ faceGlyph "error" = ":O" ∧
      faceGlyph "thinking" = ":|" ∧ faceGlyph "happy" = ":)" ∧
      faceGlyph "idle" = "._" ∧
      (∀ s : String, s ≠ "warning" → s ≠ "error" → s ≠ "thinking" →
        s ≠ "happy" → faceGlyph s = "._") ∧
      (∀ (st : StatusState) (off : Bool) (now w : Int) (d : Bool) (ip : String),
        Cmd.drawString (faceGlyph st.expr_state) (w - 20 - 7) (15 - 6) 2 ∈
          (drawScreen st off now w d ip).1) := by
  refine ⟨rfl, rfl, rfl, rfl, rfl, ?_, ?_⟩
  · intro s h1 h2 h3 h4
    simp [faceGlyph, h1, h2, h3, h4]
  · intro st off now w d ip
    simp only [drawScreen]
    by_cases hc : st.service_count = 0 <;> by_cases hd : d = true <;>
      simp [hc, hd, List.mem_append, List.mem_cons]

/-- Witness for C9 at an unknown expression string. -/
theorem C9_witness :
    faceGlyph "confused" = "._" ∧
      Cmd.drawString (faceGlyph initState.expr_state) (160 - 20 - 7) (15 - 6) 2 ∈
        (drawScreen initState false 0 160 false "").1 :=
  ⟨C9_expression_glyph_mapping.2.2.2.2.2.1 "confused" (by decide) (by decide)
      (by decide) (by decide),
    C9_expression_glyph_mapping.2.2.2.2.2.2 initState false 0 160 false ""⟩

/-- Counterexample to C2 as stated: a successfully parsed payload with
no `server_time` field does NOT leave the snapshot's `server_time` at
the epoch-zero sentinel when a previous fetch had set it — the old
non-zero value is retained. -/
theorem C2_counterexample :
    (fetchStatus ⟨true, HTTP_CODE_OK, some ⟨none, none, none, none, [], none⟩⟩
        { initState with server_time := 1709649000 }).1 = true ∧
      (fetchStatus ⟨true, HTTP_CODE_OK, some ⟨none, none, none, none, [], none⟩⟩
          { initState with server_time := 1709649000 }).2.server_time ≠ 0 := by
  exact ⟨rfl, by decide⟩

/-- C2 as amended: on a successful parse, an absent `server_time`
field, or one not matching the six-integer pattern, leaves the
snapshot's `serverTime` unchanged (hence still the epoch-zero "unknown"
sentinel exactly when it was previously unset, as in the boot
snapshot), and the fetch still reports success; a matching field sets
`serverTime` to the `mktime` of the six scanned fields. -/
theorem C2_server_time_parse (env : NetEnv) (out : StatusState) (p : Payload)
    (h1 : env.beginOk = true) (h2 : env.code = HTTP_CODE_OK)
    (h3 : env.body = some p) :
    (fetchStatus env out).1 = true ∧
      (p.server_time = none →
        (fetchStatus env out).2.server_time = out.server_time) ∧
      (∀ str : String, p.server_time = some str →
        scanTimePattern str.data = none →
        (fetchStatus env out).2.server_time = out.server_time) ∧
      (∀ (str : String) (y mo d h mi se : Int), p.server_time = some str →
        scanTimePattern str.data = some (y, mo, d, h, mi, se) →
        (fetchStatus env out).2.server_time =
          mktimeModel (y - 1900) (mo - 1) d h mi se) := by
  have hfe : fetchStatus env out = (true, applyPayload p out) := by
    simp [fetchStatus, h1, h2, h3]
  refine ⟨by rw [hfe], ?_, ?_, ?_⟩
  · intro h
    rw [hfe]
    simp [applyPayload, applyServerTime, h]
  · intro str hstr hscan
    rw [hfe]
    simp [applyPayload, applyServerTime, parseServerTime, hstr, hscan]
  · intro str y mo d h mi se hstr hscan
    rw [hfe]
    simp [applyPayload, applyServerTime, parseServerTime, hstr, hscan]

/-- Witness for the amended C2: the sentinel is kept from the boot
snapshot both for an absent field and for "not-a-date", and
"2024-03-05T14:30:00" yields the corresponding absolute time. -/
theorem C2_witness :
    (fetchStatus ⟨true, HTTP_CODE_OK, some ⟨none, none, none, none, [], none⟩⟩
        initState).2.server_time = initState.server_time ∧
      (fetchStatus
          ⟨true, HTTP_CODE_OK,
            some ⟨none, none, none, none, [], some "not-a-date"⟩⟩
          initState).2.server_time = initState.server_time ∧
      (fetchStatus
          ⟨true, HTTP_CODE_OK,
            some ⟨none, none, none, none, [], some "2024-03-05T14:30:00"⟩⟩
          initState).2.server_time =
        mktimeModel (2024 - 1900) (3 - 1) 5 14 30 0 ∧
      mktimeModel (2024 - 1900) (3 - 1) 5 14 30 0 = 1709649000 := by
  refine ⟨?_, ?_, ?_, by decide⟩
  · exact (C2_server_time_parse
      ⟨true, HTTP_CODE_OK, some ⟨none, none, none, none, [], none⟩⟩ initState
      ⟨none, none, none, none, [], none⟩ rfl rfl rfl).2.1 rfl
  · exact (C2_server_time_parse
      ⟨true, HTTP_CODE_OK, some ⟨none, none, none, none, [], some "not-a-date"⟩⟩
      initState ⟨none, none, none, none, [], some "not-a-date"⟩ rfl rfl
      rfl).2.2.1 "not-a-date" rfl (by decide)
  · exact (C2_server_time_parse
      ⟨true, HTTP_CODE_OK,
        some ⟨none, none, none, none, [], some "2024-03-05T14:30:00"⟩⟩
      initState ⟨none, none, none, none, [], some "2024-03-05T14:30:00"⟩ rfl rfl
      rfl).2.2.2 "2024-03-05T14:30:00" 2024 3 5 14 30 0 rfl (by decide)

/-- Counterexample to C4 as stated: when exactly the 45-second interval
(45000 ms) has elapsed since the last attempt — i.e. "at least the
interval has elapsed" holds — the loop does NOT attempt a fetch,
because the gate is a strict comparison. -/
theorem C4_counterexample :
    usub32 45000 0 = POLL_INTERVAL_MS ∧
      (loopStep ⟨0, initState⟩ 45000 ⟨false, 0, none⟩).2 = [] ∧
      (loopStep ⟨0, initState⟩ 45000 ⟨false, 0, none⟩).1 = ⟨0, initState⟩ := by
  refine ⟨by decide, ?_, ?_⟩ <;> rfl

/-- C4 as amended: in the Ready state, a fetch is attempted if and only
if STRICTLY more than the 45000 ms interval has elapsed (in 32-bit
wraparound arithmetic) since the last attempt; whenever a fetch is
attempted, render is called immediately afterwards with the (possibly
updated) `lastKnownState` and `offline = !fetchSucceeded`, and
`last_poll` is set to the current time; otherwise nothing changes and
nothing is called. -/
theorem C4_loop_timer_gate (st : LoopState) (now_ms : Nat) (env : NetEnv) :
    (Event.fetchAttempt ∈ (loopStep st now_ms env).2 ↔
        POLL_INTERVAL_MS < usub32 now_ms st.last_poll) ∧
      (POLL_INTERVAL_MS < usub32 now_ms st.last_poll →
        (loopStep st now_ms env).2 =
            [Event.fetchAttempt,
              Event.render (fetchStatus env st.last_state).2
                (!(fetchStatus env st.last_state).1)] ∧
          (loopStep st now_ms env).1.last_poll = now_ms ∧
          (loopStep st now_ms env).1.last_state =
            (fetchStatus env st.last_state).2) ∧
      (¬ POLL_INTERVAL_MS < usub32 now_ms st.last_poll →
        (loopStep st now_ms env).1 = st ∧ (loopStep st now_ms env).2 = []) := by
  by_cases h : POLL_INTERVAL_MS < usub32 now_ms st.last_poll <;>
    simp [loopStep, h]

/-- Witness for the amended C4: at 45001 ms elapsed a fetch is
attempted, rendered offline (connection failure), and the timestamp is
recorded; at 45000 ms elapsed nothing happens. -/
theorem C4_witness :
    ((loopStep ⟨0, initState⟩ 45001 ⟨false, 0, none⟩).2 =
        [Event.fetchAttempt,
          Event.render (fetchStatus ⟨false, 0, none⟩ initState).2
            (!(fetchStatus ⟨false, 0, none⟩ initState).1)] ∧
      (loopStep ⟨0, initState⟩ 45001 ⟨false, 0, none⟩).1.last_poll = 45001 ∧
      (loopStep ⟨0, initState⟩ 45001 ⟨false, 0, none⟩).1.last_state =
        (fetchStatus ⟨false, 0, none⟩ initState).2) ∧
      ((loopStep ⟨0, initState⟩ 45000 ⟨false, 0, none⟩).1 = ⟨0, initState⟩ ∧
        (loopStep ⟨0, initState⟩ 45000 ⟨false, 0, none⟩).2 = []) :=
  ⟨(C4_loop_timer_gate ⟨0, initState⟩ 45001 ⟨false, 0, none⟩).2.1 (by decide),
    (C4_loop_timer_gate ⟨0, initState⟩ 45000 ⟨false, 0, none⟩).2.2 (by decide)⟩
